import Mathlib

set_option maxRecDepth 8000

/-!
Shallow embedding of the response-normalization pipeline of `server.py`
(the `analyze_chart` endpoint, lines 101-184) and of the record-deletion
endpoint `delete_calculation` (lines 252-263).

Modelling conventions:
* Python strings are `List Char` (unicode code points).
* Python ints/floats are idealized as exact rationals (the executable
  rational type `Q` below, kept in lowest terms); every concrete number
  occurring in the theorems below is a small integer, exactly representable
  as a double, so no floating-point rounding behaviour is at stake.
* A Python exception escaping the normalization code (lines 149-181) is
  modelled as `none`; the enclosing handler turns it into an HTTP 500.
* `json.loads` is modelled by a recursive-descent JSON parser following the
  strict mode of Python's `json` module (standard JSON grammar, the four
  whitespace characters, last-wins duplicate object keys).  The
  non-standard extensions `NaN`/`Infinity` and surrogate-pair combining in
  `\uXXXX` escapes are not modelled; no claim exercises them.
-/

namespace Server

/-- Fuel-based greatest common divisor (structurally recursive, so that it
reduces inside the kernel; the fuel `a + 1` used below always suffices). -/
def natGcdF : Nat → Nat → Nat → Nat
| 0, _, b => b
| Nat.succ fuel, a, b => if a = 0 then b else natGcdF fuel (b % a) a

/-- Exact rational numbers with executable arithmetic.  Every value built
by the operations below has a positive denominator and is in lowest terms,
so structural equality coincides with rational equality on them. -/
structure Q where
  num : Int
  den : Nat
deriving DecidableEq

/-- Reduce the fraction `n / d` (with `d > 0`) to lowest terms. -/
def Q.norm (n : Int) (d : Nat) : Q :=
  let g := natGcdF (n.natAbs + 1) n.natAbs d
  Q.mk (n / (g : Int)) (d / g)

/-- Embedding of a natural number. -/
def Q.ofNat (n : Nat) : Q := Q.mk (Int.ofNat n) 1

instance (n : Nat) : OfNat Q n := ⟨Q.ofNat n⟩

/-- Exact rational addition (cross-multiply, then reduce). -/
def Q.add (a b : Q) : Q :=
  Q.norm (a.num * (b.den : Int) + b.num * (a.den : Int)) (a.den * b.den)

/-- JSON values as produced by `json.loads`: null, booleans, numbers,
strings, arrays and objects (objects as key/value lists in source order;
lookups take the last occurrence of a key, as Python `dict` does). -/
inductive JVal where
| jnull : JVal
| jbool : Bool → JVal
| jnum : Q → JVal
| jstr : List Char → JVal
| jarr : List JVal → JVal
| jobj : List (List Char × JVal) → JVal

/-- The four whitespace characters accepted between JSON tokens. -/
def isJsonWs (c : Char) : Bool := c = ' ' || c = '\t' || c = '\n' || c = '\r'

/-- Drop JSON whitespace. -/
def skipWs (s : List Char) : List Char := s.dropWhile isJsonWs

/-- Numeric value of a hexadecimal digit. -/
def hexVal (c : Char) : Option Nat :=
  if c.isDigit then some (c.toNat - 48)
  else if 'a' ≤ c && c ≤ 'f' then some (c.toNat - 87)
  else if 'A' ≤ c && c ≤ 'F' then some (c.toNat - 55)
  else none

/-- Translation of a one-character JSON string escape. -/
def escChar : Char → Option Char
| '"' => some '"'
| '\\' => some '\\'
| '/' => some '/'
| 'b' => some (Char.ofNat 8)
| 'f' => some (Char.ofNat 12)
| 'n' => some '\n'
| 'r' => some '\r'
| 't' => some '\t'
| _ => none

/-- Body of a JSON string after the opening quote: returns the decoded
characters and the input remaining after the closing quote.  Raw control
characters below 0x20 are rejected (Python strict mode). -/
def parseStringBody : List Char → Option (List Char × List Char)
| [] => none
| '"' :: rest => some ([], rest)
| '\\' :: e :: rest =>
  if e = 'u' then
    match rest with
    | h1 :: h2 :: h3 :: h4 :: rest4 =>
      match hexVal h1, hexVal h2, hexVal h3, hexVal h4 with
      | some a, some b, some c, some d =>
        (parseStringBody rest4).map
          (fun p => (Char.ofNat (((a * 16 + b) * 16 + c) * 16 + d) :: p.1, p.2))
      | _, _, _, _ => none
    | _ => none
  else
    match escChar e with
    | some ec => (parseStringBody rest).map (fun p => (ec :: p.1, p.2))
    | none => none
| c :: rest =>
  if c.toNat < 32 then none
  else (parseStringBody rest).map (fun p => (c :: p.1, p.2))

/-- Value of a list of decimal digits. -/
def digitsToNat (l : List Char) : Nat := l.foldl (fun n c => 10 * n + (c.toNat - 48)) 0

/-- Optional fractional part `.ddd` of a JSON number (not consumed when
absent, mirroring the backtracking of Python's NUMBER_RE). -/
def parseFracPart (r : List Char) : Nat × Nat × List Char :=
  match r with
  | '.' :: r2 =>
    let fd := r2.takeWhile Char.isDigit
    if fd = [] then (0, 0, r) else (digitsToNat fd, fd.length, r2.dropWhile Char.isDigit)
  | _ => (0, 0, r)

/-- Optional exponent part `[eE][+-]?ddd` of a JSON number. -/
def parseExpPart (r : List Char) : Int × List Char :=
  match r with
  | e :: r2 =>
    if e = 'e' || e = 'E' then
      let signSplit : Int × List Char :=
        match r2 with
        | '+' :: rr => (1, rr)
        | '-' :: rr => (-1, rr)
        | _ => (1, r2)
      let ed := signSplit.2.takeWhile Char.isDigit
      if ed = [] then (0, r)
      else (signSplit.1 * digitsToNat ed, signSplit.2.dropWhile Char.isDigit)
    else (0, r)
  | [] => (0, r)

/-- Assemble an exact rational from sign, integer part, fractional digits
and decimal exponent.  The denominator is always a power of ten, so no
general division is needed. -/
def mkNum (neg : Bool) (ip fracVal fracLen : Nat) (ex : Int) : Q :=
  let mant : Nat := ip * 10 ^ fracLen + fracVal
  let sNum : Int := if neg then -(mant : Int) else (mant : Int)
  if 0 ≤ ex then Q.norm (sNum * ((10 ^ ex.toNat : Nat) : Int)) (10 ^ fracLen)
  else Q.norm sNum (10 ^ fracLen * 10 ^ (-ex).toNat)

/-- JSON number per the grammar `-?(0|[1-9][0-9]*)(\.[0-9]+)?([eE][+-]?[0-9]+)?`.
A leading `0` is not followed by further integer digits (they are left
unconsumed, as Python's regex leaves them). -/
def parseNumber (s : List Char) : Option (Q × List Char) :=
  let signSplit : Bool × List Char :=
    match s with
    | '-' :: r => (true, r)
    | _ => (false, s)
  let neg := signSplit.1
  let s1 := signSplit.2
  match s1 with
  | '0' :: r1 =>
    let (fv, fl, r2) := parseFracPart r1
    let (ex, r3) := parseExpPart r2
    some (mkNum neg 0 fv fl ex, r3)
  | c :: _ =>
    if c.isDigit then
      let ip := s1.takeWhile Char.isDigit
      let r1 := s1.dropWhile Char.isDigit
      let (fv, fl, r2) := parseFracPart r1
      let (ex, r3) := parseExpPart r2
      some (mkNum neg (digitsToNat ip) fv fl ex, r3)
    else none
  | [] => none

mutual

/-- Recursive-descent JSON value parser (fuel-indexed; regions handed to it
are always given enough fuel). -/
def parseValue : Nat → List Char → Option (JVal × List Char)
| 0, _ => none
| Nat.succ fuel, s =>
  match skipWs s with
  | [] => none
  | '{' :: r => parseMembersStart fuel r
  | '[' :: r => parseElemsStart fuel r
  | '"' :: r => (parseStringBody r).map (fun p => (JVal.jstr p.1, p.2))
  | 't' :: 'r' :: 'u' :: 'e' :: r => some (JVal.jbool true, r)
  | 'f' :: 'a' :: 'l' :: 's' :: 'e' :: r => some (JVal.jbool false, r)
  | 'n' :: 'u' :: 'l' :: 'l' :: r => some (JVal.jnull, r)
  | s1 => (parseNumber s1).map (fun p => (JVal.jnum p.1, p.2))

/-- Object body right after `{`: either an immediate `}` or a member list. -/
def parseMembersStart : Nat → List Char → Option (JVal × List Char)
| 0, _ => none
| Nat.succ fuel, s =>
  match skipWs s with
  | '}' :: r => some (JVal.jobj [], r)
  | s1 => parseMembers fuel s1 []

/-- Members of an object: `"key" : value` pairs separated by commas. -/
def parseMembers : Nat → List Char → List (List Char × JVal) → Option (JVal × List Char)
| 0, _, _ => none
| Nat.succ fuel, s, acc =>
  match skipWs s with
  | '"' :: r =>
    match parseStringBody r with
    | none => none
    | some (key, r1) =>
      match skipWs r1 with
      | ':' :: r2 =>
        match parseValue fuel r2 with
        | none => none
        | some (v, r3) =>
          match skipWs r3 with
          | ',' :: r4 => parseMembers fuel r4 (acc ++ [(key, v)])
          | '}' :: r4 => some (JVal.jobj (acc ++ [(key, v)]), r4)
          | _ => none
      | _ => none
  | _ => none

/-- Array body right after `[`: either an immediate `]` or an element list. -/
def parseElemsStart : Nat → List Char → Option (JVal × List Char)
| 0, _ => none
| Nat.succ fuel, s =>
  match skipWs s with
  | ']' :: r => some (JVal.jarr [], r)
  | s1 => parseElems fuel s1 []

/-- Elements of an array, separated by commas. -/
def parseElems : Nat → List Char → List JVal → Option (JVal × List Char)
| 0, _, _ => none
| Nat.succ fuel, s, acc =>
  match parseValue fuel s with
  | none => none
  | some (v, r1) =>
    match skipWs r1 with
    | ',' :: r2 => parseElems fuel r2 (acc ++ [v])
    | ']' :: r2 => some (JVal.jarr (acc ++ [v]), r2)
    | _ => none

end

/-- Model of `json.loads(region)`: parse one JSON document and require only
whitespace after it. -/
def parseRegion (r : List Char) : Option JVal :=
  match parseValue (2 * r.length + 4) r with
  | some (v, rest) => if skipWs rest = [] then some v else none
  | none => none

/-- Characters up to (excluding) the first closing brace of the input, or
`none` when the input holds no closing brace. -/
def scanBody : List Char → Option (List Char)
| [] => none
| c :: rest => if c = '\x7d' then some [] else (scanBody rest).map (fun b => c :: b)

/-- Model of `re.search(r'RE_OBJ', response, re.DOTALL).group(0)` where
RE_OBJ is an opening brace, one or more non-closing-brace characters, and a
closing brace: the leftmost region starting at an opening brace, running to
the first closing brace after it, with a nonempty body. -/
def findJsonMatch : List Char → Option (List Char)
| [] => none
| c :: rest =>
  if c = '\x7b' then
    match scanBody rest with
    | some b => if b = [] then findJsonMatch rest else some ('\x7b' :: (b ++ ['\x7d']))
    | none => findJsonMatch rest
  else findJsonMatch rest

/-- Characters matched by the token regex of the fallback: digits and commas. -/
def isNumTokChar (c : Char) : Bool := c.isDigit || c = ','

/-- Worker for `numTokens`: the Boolean records whether a token is open and
`cur` holds its characters in reverse.  A token opens at a digit and runs
over digits and commas; a character that closes a token is never a digit,
so it cannot open the next one. -/
def numTokensGo : Bool → List Char → List Char → List (List Char)
| inTok, cur, [] => if inTok then [cur.reverse] else []
| true, cur, c :: rest =>
  if isNumTokChar c then numTokensGo true (c :: cur) rest
  else cur.reverse :: numTokensGo false [] rest
| false, _, c :: rest =>
  if c.isDigit then numTokensGo true [c] rest else numTokensGo false [] rest

/-- Model of `re.findall(r'\d+[,\d]*', response)`: maximal left-to-right
tokens starting at a digit and extending over digits and commas. -/
def numTokens (s : List Char) : List (List Char) := numTokensGo false [] s

/-- Comma stripping of `n.replace(',', '')`. -/
def stripCommas (t : List Char) : List Char := t.filter (fun c => c != ',')

/-- Value of `float(n.replace(',', ''))` on a fallback token (a nonempty
digit string after comma stripping), idealized as an exact rational. -/
def tokenToQ (t : List Char) : Q := Q.ofNat (digitsToNat (stripCommas t))

/-- Model of `dict.get(key, [])` lookup followed by Python dict semantics
for duplicate keys: the last occurrence of the key wins. -/
def getField (kvs : List (List Char × JVal)) (k : List Char) : Option JVal :=
  (kvs.reverse.find? (fun p => p.1 == k)).map (fun p => p.2)

/-- Key string for the labels field. -/
def etiquetasKey : List Char := "etiquetas".toList

/-- Key string for the values field. -/
def valoresKey : List Char := "valores".toList

/-- The structured result returned by `analyze_chart` on success: labels,
values (arbitrary JSON values, exactly as Python keeps them after
`data.get`), and the computed total. -/
structure ChartResult where
  etiquetas : List JVal
  valores : List JVal
  suma_total : Q

/-- Numeric value of a list element under Python's `sum`: ints/floats count
as themselves, booleans as 0/1, everything else raises `TypeError`. -/
def pyNum : JVal → Option Q
| JVal.jnum q => some q
| JVal.jbool b => some (if b then 1 else 0)
| _ => none

/-- Model of Python's `sum` over the values list: the sum when every element
is numeric, `none` (a raised `TypeError`) otherwise.  (Python folds from
the left starting at the int `0`; over exact rationals the grouping is
immaterial, and the raising condition — some non-numeric element among the
13 retained ones — is identical.) -/
def sumVals : List JVal → Option Q
| [] => some 0
| v :: rest =>
  match pyNum v, sumVals rest with
  | some q, some r => some (Q.add q r)
  | _, _ => none

/-- Cardinality enforcement for the values (`server.py` lines 164-167): pad
with `0` up to 13 elements when shorter, then truncate to the first 13. -/
def enforceValores (l : List JVal) : List JVal :=
  List.take 13 (if l.length < 13 then l ++ List.replicate (13 - l.length) (JVal.jnum 0) else l)

/-- Synthetic label for 0-based column index `i`. -/
def colLabel (i : Nat) : List Char := ("Col " ++ toString (i + 1)).toList

/-- Cardinality enforcement for the labels (`server.py` lines 169-171): pad
with `Col (i+1)` for the missing 0-based indices, then truncate to 13. -/
def enforceEtiquetas (l : List JVal) : List JVal :=
  List.take 13
    (if l.length < 13 then
      l ++ (List.range' l.length (13 - l.length)).map (fun i => JVal.jstr (colLabel i))
    else l)

/-- The JSON path of the normalizer (`server.py` lines 150-155): locate the
first brace region, parse it, and read the two fields with `[]` defaults.
Returns `none` exactly when the code raises into the bare `except:` (no
region found, or `json.loads` failed), which triggers the fallback. -/
def jsonPath (s : List Char) : Option (JVal × JVal) :=
  match findJsonMatch s with
  | none => none
  | some region =>
    match parseRegion region with
    | some (JVal.jobj kvs) =>
      some ((getField kvs etiquetasKey).getD (JVal.jarr []),
            (getField kvs valoresKey).getD (JVal.jarr []))
    | _ => none

/-- Fallback values (`server.py` lines 160-161): the first 13 numeric tokens
of the whole raw text, commas stripped. -/
def fallbackValores (s : List Char) : List JVal :=
  ((numTokens s).take 13).map (fun t => JVal.jnum (tokenToQ t))

/-- Fallback labels (`server.py` line 162): `Col 1` .. `Col 13`. -/
def fallbackEtiquetas : List JVal :=
  (List.range 13).map (fun i => JVal.jstr (colLabel i))

/-- Cardinality enforcement plus total (`server.py` lines 164-174), applied
to whatever the two variables hold after either path.  Python raises a
`TypeError` out of these lines when a field is not a list (`len`/`extend`/
slicing) or when a retained value is not numeric (`sum`); both are modelled
as `none`.  (One unreachable-in-practice corner is narrowed: a `str`-typed
field of length at least 13 would pass Python's `len` and slicing — for
`valores` the subsequent `sum` still raises, while for `etiquetas` Python
would return a 13-character string rather than a list; this model treats
every non-list field as the raised `TypeError`.) -/
def enforceResult (etiq vals : JVal) : Option ChartResult :=
  match etiq, vals with
  | JVal.jarr ls, JVal.jarr vs =>
    (sumVals (enforceValores vs)).map
      (fun t => ChartResult.mk (enforceEtiquetas ls) (enforceValores vs) t)
  | _, _ => none

/-- The full normalization step of `analyze_chart` (`server.py` lines
149-174): JSON path when it succeeds, token-scan fallback otherwise, then
cardinality enforcement and the total.  `none` models an exception escaping
to the outer handler (HTTP 500). -/
def normalize (s : List Char) : Option ChartResult :=
  match jsonPath s with
  | some (e, v) => enforceResult e v
  | none => enforceResult (JVal.jarr fallbackEtiquetas) (JVal.jarr (fallbackValores s))

/-- Outcome of one external model invocation, as seen by `analyze_chart`. -/
inductive ModelCall where
| success (raw : List Char)
| failure

/-- Observable outcome of the `analyze_chart` endpoint.  All three error
constructors surface as HTTP 500, distinguished by their detail text: the
missing-credential failure carries the text `API key no configurada`
(wrapped by the outer handler into `Error al analizar la imagen: 500: API
key no configurada`), while a failed model call or a normalization
exception carry `Error al analizar la imagen: ...` with the underlying
error text. -/
inductive AnalyzeOutcome where
| ok (result : ChartResult)
| configError
| processingError

/-- Model of the `analyze_chart` handler (`server.py` lines 101-184): the
credential check precedes the construction of the chat session and the
external call; the Boolean in the result records whether `send_message`
was executed at all. -/
def analyze_chart (api_key : Option (List Char)) (call : ModelCall) : AnalyzeOutcome × Bool :=
  match api_key with
  | none => (AnalyzeOutcome.configError, false)
  | some _ =>
    match call with
    | ModelCall.failure => (AnalyzeOutcome.processingError, true)
    | ModelCall.success raw =>
      match normalize raw with
      | some r => (AnalyzeOutcome.ok r, true)
      | none => (AnalyzeOutcome.processingError, true)

/-- Hexadecimal-digit test for ObjectId validity. -/
def isHexChar (c : Char) : Bool :=
  c.isDigit || ('a' ≤ c && c ≤ 'f') || ('A' ≤ c && c ≤ 'F')

/-- Validity of a path parameter as a `bson.ObjectId`: a 24-character
hexadecimal string (case-insensitive).  An invalid string makes the
`ObjectId` constructor raise `InvalidId`. -/
def isValidObjectId (cid : List Char) : Bool :=
  cid.length == 24 && cid.all isHexChar

/-- Case normalization of a hexadecimal ObjectId string (`ObjectId`
comparison is on the decoded bytes, hence case-insensitive). -/
def normalizeOid (cid : List Char) : List Char := cid.map Char.toLower

/-- Detail text classification of the `delete_calculation` response. -/
inductive DeleteDetail where
| eliminadoMsg
| errorAlEliminar (innerWasNotFound : Bool)
deriving DecidableEq

/-- Model of the `delete_calculation` handler (`server.py` lines 252-263),
returning the HTTP status code and the detail classification.  The store is
the list of stored record identifiers (lower-case hex).  Note the control
flow of the source: the `HTTPException(404, "Cálculo no encontrado")`
raised when `deleted_count == 0` is itself caught by the handler's broad
`except Exception` clause (fastapi's `HTTPException` subclasses
`Exception`, and unlike the mail endpoints this handler has no
`except HTTPException: raise` clause), so the response is re-wrapped as
HTTP 500 with detail `Error al eliminar el cálculo: 404: Cálculo no
encontrado`.  An id rejected by the `ObjectId` constructor likewise ends as
HTTP 500. -/
def delete_calculation (store : List (List Char)) (calculation_id : List Char) :
    Nat × DeleteDetail :=
  if isValidObjectId calculation_id then
    if store.contains (normalizeOid calculation_id) then (200, DeleteDetail.eliminadoMsg)
    else (500, DeleteDetail.errorAlEliminar true)
  else (500, DeleteDetail.errorAlEliminar false)

/-- Expected normalization result for the raw text `abc 5`: fallback labels,
the single token `5` padded with twelve zeros, total 5. -/
def c1WitnessResult : ChartResult :=
  ChartResult.mk fallbackEtiquetas (JVal.jnum 5 :: List.replicate 12 (JVal.jnum 0)) 5

/-- Raw text consisting of a well-formed JSON object whose two arrays have
length exactly 13 but whose first value is `null`. -/
def c2cexText : List Char :=
  ("\x7b\"etiquetas\": [\"L1\",\"L2\",\"L3\",\"L4\",\"L5\",\"L6\",\"L7\",\"L8\",\"L9\",\"L10\",\"L11\",\"L12\",\"L13\"], \"valores\": [null,10,20,30,40,50,60,70,80,90,100,110,120]\x7d").toList

/-- Raw text consisting of a JSON object with 14 labels and 14 values (the
spec's 14-element example). -/
def c2wText : List Char :=
  ("\x7b\"etiquetas\": [\"x1\",\"x2\",\"x3\",\"x4\",\"x5\",\"x6\",\"x7\",\"x8\",\"x9\",\"x10\",\"x11\",\"x12\",\"x13\",\"x14\"], \"valores\": [10,20,30,40,50,60,70,80,90,100,110,120,130,140]\x7d").toList

/-- The 14 labels of `c2wText` as parsed JSON values. -/
def c2wLabels : List JVal :=
  (List.range' 1 14).map (fun i => JVal.jstr (("x" ++ toString i).toList))

/-- The 14 values of `c2wText` as parsed JSON values. -/
def c2wValues : List JVal :=
  (List.range' 1 14).map (fun i => JVal.jnum (Q.ofNat (10 * i)))

/-- Expected normalization result for `c2wText`: the first 13 of each array
and the post-truncation total 910 (the pre-truncation sum would be 1050). -/
def c3WitnessResult : ChartResult :=
  ChartResult.mk (c2wLabels.take 13) (c2wValues.take 13) 910

/-- A syntactically valid ObjectId that resolves to no stored record of the
empty store. -/
def c4AbsentId : List Char := "0123456789abcdef01234567".toList

/-- The spec's no-JSON example text. -/
def c5wText : List Char := "no JSON here but 1,680 and 930 appear".toList

/-- The spec's small-object example text. -/
def c6Text : List Char :=
  ("\x7b\"etiquetas\": [\"Ene\",\"Feb\"], \"valores\": [100, 200]\x7d").toList

/-- Raw text whose first region parses as an object that lacks `valores`
but whose present `etiquetas` field is the number 5. -/
def c10cexText : List Char := ("\x7b\"etiquetas\": 5\x7d and 77").toList

/-- Raw text whose first region parses as an object with an array
`etiquetas` and no `valores` key, followed by numeric tokens. -/
def c10wTextA : List Char := ("\x7b\"etiquetas\": [\"a\"]\x7d has 55 and 66").toList

/-- Raw text whose first region parses as an object with a `valores` array
and no `etiquetas` key, followed by a numeric token. -/
def c10wTextB : List Char := ("\x7b\"valores\": [9]\x7d and 77").toList

/-- Rewriting lemma: a found region that parses as an object determines the
JSON path's outcome. -/
theorem jsonPath_eq_of_region (s m : List Char) (kvs : List (List Char × JVal))
    (h1 : findJsonMatch s = some m) (h2 : parseRegion m = some (JVal.jobj kvs)) :
    jsonPath s = some ((getField kvs etiquetasKey).getD (JVal.jarr []),
      (getField kvs valoresKey).getD (JVal.jarr [])) := by
  simp only [jsonPath, h1, h2]

/-- Rewriting lemma: no region means the JSON path degrades. -/
theorem jsonPath_eq_none_of_no_match (s : List Char) (h : findJsonMatch s = none) :
    jsonPath s = none := by
  simp only [jsonPath, h]

/-- Rewriting lemma: a successful JSON path feeds its two fields to the
enforcement step. -/
theorem normalize_of_jsonPath_some (s : List Char) (e v : JVal)
    (h : jsonPath s = some (e, v)) : normalize s = enforceResult e v := by
  simp only [normalize, h]

/-- Rewriting lemma: a degraded JSON path feeds the fallback lists to the
enforcement step. -/
theorem normalize_of_jsonPath_none (s : List Char) (h : jsonPath s = none) :
    normalize s = enforceResult (JVal.jarr fallbackEtiquetas) (JVal.jarr (fallbackValores s)) := by
  simp only [normalize, h]

/-- Cardinality enforcement always yields exactly 13 values. -/
theorem enforceValores_length (l : List JVal) : (enforceValores l).length = 13 := by
  unfold enforceValores
  split <;> simp [List.length_take, List.length_append, List.length_replicate] <;> omega

/-- Cardinality enforcement always yields exactly 13 labels. -/
theorem enforceEtiquetas_length (l : List JVal) : (enforceEtiquetas l).length = 13 := by
  unfold enforceEtiquetas
  split <;> simp [List.length_take, List.length_append, List.length_map] <;> omega

/-- Python's `sum` succeeds on a list whose elements are all numeric. -/
theorem sumVals_isSome (l : List JVal) (h : ∀ v ∈ l, (pyNum v).isSome) :
    (sumVals l).isSome = true := by
  induction l with
  | nil => simp [sumVals]
  | cons v t ih =>
    obtain ⟨q, hq⟩ := Option.isSome_iff_exists.mp (h v (List.mem_cons_self v t))
    obtain ⟨r, hr⟩ := Option.isSome_iff_exists.mp (ih (fun x hx => h x (List.mem_cons_of_mem v hx)))
    simp [sumVals, hq, hr]

/-- Every element retained by the values enforcement comes from the input
list or is a padding zero. -/
theorem mem_enforceValores (v : JVal) (l : List JVal) (h : v ∈ enforceValores l) :
    v ∈ l ∨ v = JVal.jnum 0 := by
  unfold enforceValores at h
  have h' := List.mem_of_mem_take h
  revert h'
  split
  · intro h'
    rcases List.mem_append.mp h' with hl | hr
    · exact Or.inl hl
    · exact Or.inr (List.eq_of_mem_replicate hr)
  · exact fun h' => Or.inl h'

/-- Sharper membership: every element retained by the values enforcement
comes from the first 13 input elements or is a padding zero. -/
theorem mem_enforceValores_take (v : JVal) (l : List JVal) (h : v ∈ enforceValores l) :
    v ∈ l.take 13 ∨ v = JVal.jnum 0 := by
  unfold enforceValores at h
  revert h
  split
  · intro h
    rw [List.take_append_eq_append_take] at h
    rcases List.mem_append.mp h with hl | hr
    · exact Or.inl hl
    · exact Or.inr (List.eq_of_mem_replicate (List.mem_of_mem_take hr))
  · exact fun h => Or.inl h

/-- If the first 13 input values are numeric, the sum of the enforced list
succeeds. -/
theorem sumVals_enforce_isSome (vs : List JVal) (h : ∀ v ∈ vs.take 13, (pyNum v).isSome) :
    (sumVals (enforceValores vs)).isSome = true := by
  apply sumVals_isSome
  intro v hv
  rcases mem_enforceValores_take v vs hv with hmem | hzero
  · exact h v hmem
  · rw [hzero]
    rfl

/-- The enforced fallback values are all numeric, so their sum succeeds. -/
theorem fallback_sum_isSome (s : List Char) :
    (sumVals (enforceValores (fallbackValores s))).isSome = true := by
  apply sumVals_isSome
  intro v hv
  rcases mem_enforceValores v _ hv with hmem | hzero
  · obtain ⟨t, _, ht⟩ := List.mem_map.mp hmem
    rw [← ht]
    rfl
  · rw [hzero]
    rfl

/-- Inversion of a successful cardinality-enforcement step: both fields were
lists, and the result's components are the enforced lists and their sum. -/
theorem enforceResult_eq_some (e v : JVal) (r : ChartResult)
    (h : enforceResult e v = some r) :
    ∃ ls vs, e = JVal.jarr ls ∧ v = JVal.jarr vs ∧
      r.etiquetas = enforceEtiquetas ls ∧ r.valores = enforceValores vs ∧
      sumVals (enforceValores vs) = some r.suma_total := by
  cases e <;> cases v
  case jarr.jarr ls vs =>
    simp only [enforceResult] at h
    obtain ⟨t, ht, hr⟩ := Option.map_eq_some'.mp h
    exact ⟨ls, vs, rfl, rfl, by rw [← hr], by rw [← hr], by rw [← hr]; exact ht⟩
  all_goals exact Option.noConfusion h

/-- C1 (amended).  Whenever normalization completes without an exception its
labels and values sequences have length exactly 13, and whenever the JSON
path degrades (no brace region, or `json.loads` fails) the token-scan
fallback always completes successfully — the degradation is never surfaced
as an error.  (The amendment: a brace region that parses as a JSON object
whose `etiquetas`/`valores` fields are not arrays of summable values makes
the cardinality-enforcement or sum lines raise a `TypeError`, surfaced by
the outer handler as a generic HTTP 500, so the original universal
"succeeds for every raw text" fails; see the counterexample.) -/
theorem c1_lengths_and_fallback_success (s : List Char) :
    (∀ r, normalize s = some r → r.etiquetas.length = 13 ∧ r.valores.length = 13) ∧
    (jsonPath s = none → (normalize s).isSome = true) := by
  constructor
  · intro r h
    unfold normalize at h
    rcases hjp : jsonPath s with _ | ⟨e, v⟩ <;> rw [hjp] at h
    · obtain ⟨ls, vs, _, _, he, hv, _⟩ := enforceResult_eq_some _ _ _ h
      rw [he, hv]
      exact ⟨enforceEtiquetas_length ls, enforceValores_length vs⟩
    · obtain ⟨ls, vs, _, _, he, hv, _⟩ := enforceResult_eq_some _ _ _ h
      rw [he, hv]
      exact ⟨enforceEtiquetas_length ls, enforceValores_length vs⟩
  · intro hjp
    rw [normalize_of_jsonPath_none s hjp]
    simp only [enforceResult]
    obtain ⟨t, ht⟩ := Option.isSome_iff_exists.mp (fallback_sum_isSome s)
    rw [ht]
    rfl

/-- C1 counterexample.  The raw text consisting of the JSON object whose
`etiquetas` field is the number `5` makes the normalization step raise
(`len(5)` is a `TypeError` at the labels-enforcement line), so the claim
that normalization succeeds for every raw model text is false. -/
theorem c1_counterexample :
    normalize ("\x7b\"etiquetas\": 5\x7d".toList) = none := rfl

/-- C1 witness: a concrete text with no JSON region, on which the fallback
succeeds with 13 labels and 13 values. -/
theorem c1_witness :
    jsonPath ("abc 5".toList) = none ∧ (normalize ("abc 5".toList)).isSome = true ∧
    normalize ("abc 5".toList) = some c1WitnessResult ∧
    c1WitnessResult.etiquetas.length = 13 ∧ c1WitnessResult.valores.length = 13 :=
  ⟨rfl, (c1_lengths_and_fallback_success ("abc 5".toList)).2 rfl, rfl,
    ((c1_lengths_and_fallback_success ("abc 5".toList)).1 c1WitnessResult rfl).1,
    ((c1_lengths_and_fallback_success ("abc 5".toList)).1 c1WitnessResult rfl).2⟩

/-- C2 (amended).  When the first brace-delimited region of the raw text
parses as a JSON object whose `etiquetas` and `valores` fields are arrays
of length at least 13 and whose first 13 values are numeric, the normalizer
returns exactly the first 13 elements of each array, in order.  (The
amendment: the original claim quantified over every raw response merely
containing such an object; it fails when a non-numeric entry sits among the
first 13 values, because Python's `sum` then raises — see the
counterexample — and the object must moreover be the region the regex
selects.) -/
theorem c2_first13_of_json_arrays (s : List Char) (ls vs : List JVal)
    (hjp : jsonPath s = some (JVal.jarr ls, JVal.jarr vs))
    (hls : 13 ≤ ls.length) (hvs : 13 ≤ vs.length)
    (hnum : ∀ v ∈ vs.take 13, (pyNum v).isSome) :
    ∃ t, normalize s = some (ChartResult.mk (ls.take 13) (vs.take 13) t) ∧
      sumVals (vs.take 13) = some t := by
  have hev : enforceValores vs = vs.take 13 := by
    unfold enforceValores
    rw [if_neg (by omega)]
  have hee : enforceEtiquetas ls = ls.take 13 := by
    unfold enforceEtiquetas
    rw [if_neg (by omega)]
  have hsum : (sumVals (enforceValores vs)).isSome = true := by
    rw [hev]
    exact sumVals_isSome _ hnum
  obtain ⟨t, ht⟩ := Option.isSome_iff_exists.mp hsum
  refine ⟨t, ?_, by rw [← hev]; exact ht⟩
  rw [normalize_of_jsonPath_some s _ _ hjp]
  simp only [enforceResult]
  rw [ht, hee, hev]
  rfl

/-- C3.  Whenever normalization completes, the returned total is the sum of
the final (post-enforcement) values sequence, which has exactly 13
elements — never the sum of the pre-enforcement values. -/
theorem c3_total_is_post_enforcement_sum (s : List Char) (r : ChartResult)
    (h : normalize s = some r) :
    sumVals r.valores = some r.suma_total ∧ r.valores.length = 13 := by
  unfold normalize at h
  rcases hjp : jsonPath s with _ | ⟨e, v⟩ <;> rw [hjp] at h
  · obtain ⟨ls, vs, _, _, _, hv, hs⟩ := enforceResult_eq_some _ _ _ h
    rw [hv]
    exact ⟨hs, enforceValores_length vs⟩
  · obtain ⟨ls, vs, _, _, _, hv, hs⟩ := enforceResult_eq_some _ _ _ h
    rw [hv]
    exact ⟨hs, enforceValores_length vs⟩

/-- C5.  When the raw text holds no JSON-shaped substring (the regex finds
no region), the normalizer succeeds with the synthetic labels `Col 1` ..
`Col 13`, the first up-to-13 comma-stripped numeric tokens of the text in
reading order padded with zeros to length 13, and their sum as total. -/
theorem c5_no_json_fallback_shape (s : List Char) (h : findJsonMatch s = none) :
    ∃ t, normalize s = some (ChartResult.mk fallbackEtiquetas
        (enforceValores (fallbackValores s)) t) ∧
      sumVals (enforceValores (fallbackValores s)) = some t := by
  obtain ⟨t, ht⟩ := Option.isSome_iff_exists.mp (fallback_sum_isSome s)
  refine ⟨t, ?_, ht⟩
  rw [normalize_of_jsonPath_none s (jsonPath_eq_none_of_no_match s h)]
  simp only [enforceResult]
  rw [ht]
  rfl

/-- C8 (amended).  The JSON-search step selects only the first eligible
brace-delimited region, and when that region parses as a JSON object the
normalizer's output is determined by that region alone: two raw texts whose
first regions coincide and parse normalize identically, all later regions
ignored.  (The amendment: when the first region fails to parse, the
token-scan fallback reads the entire raw text, so later regions can then
influence the output — see the counterexample.) -/
theorem c8_first_parsed_region_determines_output (s₁ s₂ m : List Char)
    (kvs : List (List Char × JVal))
    (h₁ : findJsonMatch s₁ = some m) (h₂ : findJsonMatch s₂ = some m)
    (hp : parseRegion m = some (JVal.jobj kvs)) :
    normalize s₁ = normalize s₂ := by
  rw [normalize_of_jsonPath_some s₁ _ _ (jsonPath_eq_of_region s₁ m kvs h₁ hp),
    normalize_of_jsonPath_some s₂ _ _ (jsonPath_eq_of_region s₂ m kvs h₂ hp)]

/-- C8 counterexample.  Two raw texts, each containing two JSON-shaped
brace regions (their trailing substrings are themselves regions the regex
would match), share the same first region yet normalize differently: the
first region fails to parse, the fallback scans the whole text, and the
differing second regions change the output — so later regions are not
ignored. -/
theorem c8_counterexample :
    findJsonMatch ("\x7bx\x7d \x7b1\x7d".toList) = some ("\x7bx\x7d".toList) ∧
    findJsonMatch ("\x7bx\x7d \x7b2\x7d".toList) = some ("\x7bx\x7d".toList) ∧
    findJsonMatch ("\x7b1\x7d".toList) = some ("\x7b1\x7d".toList) ∧
    findJsonMatch ("\x7b2\x7d".toList) = some ("\x7b2\x7d".toList) ∧
    (normalize ("\x7bx\x7d \x7b1\x7d".toList)).map ChartResult.suma_total ≠
      (normalize ("\x7bx\x7d \x7b2\x7d".toList)).map ChartResult.suma_total :=
  ⟨rfl, rfl, rfl, rfl, by decide⟩

/-- C9.  Normalization is deterministic: the normalization step is a pure
function of the raw text (lines 149-181 perform no I/O, no randomness and
no time-dependent computation), so two runs on the same input yield
identical labels, values and total. -/
theorem c9_normalization_deterministic (s : List Char) (r₁ r₂ : Option ChartResult)
    (h₁ : normalize s = r₁) (h₂ : normalize s = r₂) : r₁ = r₂ := by
  rw [← h₁, ← h₂]

/-- C10 (amended).  When the first brace region parses as a JSON object, a
missing `etiquetas` or `valores` key does not trigger the token-scan
fallback: the missing field defaults to the empty array and is padded.
With `valores` missing (and `etiquetas` absent or an array) the values are
13 zeros with total 0 regardless of numeric tokens elsewhere; with
`etiquetas` missing (and `valores` an array whose first 13 values are
numeric) the labels are the empty array padded to `Col 1` .. `Col 13`
while the values still come from the JSON array, not from token scanning.
(The amendment: the original claim covered every object lacking a key, but
a present non-array field alongside the missing one makes the enforcement
raise a `TypeError` — HTTP 500 — instead of yielding the padded result;
see the counterexample.) -/
theorem c10_missing_fields_default_to_empty_arrays (s m : List Char)
    (kvs : List (List Char × JVal))
    (h₁ : findJsonMatch s = some m)
    (h₂ : parseRegion m = some (JVal.jobj kvs)) :
    (getField kvs valoresKey = none →
      (getField kvs etiquetasKey = none ∨
        ∃ ls, getField kvs etiquetasKey = some (JVal.jarr ls)) →
      ∃ r, normalize s = some r ∧ r.valores = List.replicate 13 (JVal.jnum 0) ∧
        r.suma_total = 0) ∧
    (getField kvs etiquetasKey = none →
      ∀ vs, getField kvs valoresKey = some (JVal.jarr vs) →
        (∀ v ∈ vs.take 13, (pyNum v).isSome) →
        ∃ r, normalize s = some r ∧ r.etiquetas = enforceEtiquetas [] ∧
          r.valores = enforceValores vs) := by
  constructor
  · intro h₃ h₄
    have hz : enforceValores [] = List.replicate 13 (JVal.jnum 0) := rfl
    have hs : sumVals (enforceValores []) = some 0 := rfl
    obtain ⟨ls, hls⟩ : ∃ ls, (getField kvs etiquetasKey).getD (JVal.jarr []) = JVal.jarr ls := by
      rcases h₄ with h | ⟨ls, h⟩
      · exact ⟨[], by rw [h]; rfl⟩
      · exact ⟨ls, by rw [h]; rfl⟩
    refine ⟨ChartResult.mk (enforceEtiquetas ls) (List.replicate 13 (JVal.jnum 0)) 0, ?_, rfl, rfl⟩
    have hjp := jsonPath_eq_of_region s m kvs h₁ h₂
    rw [hls, h₃] at hjp
    simp only [Option.getD] at hjp
    rw [normalize_of_jsonPath_some s _ _ hjp]
    simp only [enforceResult]
    rw [hs, hz]
    rfl
  · intro hE vs hV hnum
    have hjp := jsonPath_eq_of_region s m kvs h₁ h₂
    rw [hE, hV] at hjp
    simp only [Option.getD] at hjp
    obtain ⟨t, ht⟩ := Option.isSome_iff_exists.mp (sumVals_enforce_isSome vs hnum)
    refine ⟨ChartResult.mk (enforceEtiquetas []) (enforceValores vs) t, ?_, rfl, rfl⟩
    rw [normalize_of_jsonPath_some s _ _ hjp]
    simp only [enforceResult]
    rw [ht]
    rfl

/-- C10 counterexample.  `c10cexText`'s first region parses as a JSON
object lacking the `valores` key, yet the normalizer does not yield 13 zero
values: the present `etiquetas` field is the number 5, `len(5)` raises a
`TypeError` at the labels-enforcement line, and the handler answers HTTP
500 — so the original unconditional claim is false. -/
theorem c10_counterexample :
    findJsonMatch c10cexText = some ("\x7b\"etiquetas\": 5\x7d".toList) ∧
    parseRegion ("\x7b\"etiquetas\": 5\x7d".toList) =
      some (JVal.jobj [(etiquetasKey, JVal.jnum 5)]) ∧
    getField [(etiquetasKey, JVal.jnum 5)] valoresKey = none ∧
    normalize c10cexText = none :=
  ⟨rfl, rfl, rfl, rfl⟩

/-- C2 counterexample.  `c2cexText` contains (indeed, is) a well-formed
single JSON object whose `etiquetas` and `valores` fields are arrays of
length 13, yet the normalizer does not return their first 13 elements: it
raises (`sum` hits the `null`), surfaced as an HTTP 500. -/
theorem c2_counterexample :
    (∃ ls vs, jsonPath c2cexText = some (JVal.jarr ls, JVal.jarr vs) ∧
      ls.length = 13 ∧ vs.length = 13) ∧
    normalize c2cexText = none :=
  ⟨⟨_, _, rfl, rfl, rfl⟩, rfl⟩

/-- C2 witness: the spec's 14-element example, instantiating the amended
claim — the first 13 labels and values are kept, the 14th discarded. -/
theorem c2_witness :
    13 ≤ c2wLabels.length ∧ 13 ≤ c2wValues.length ∧
    (∃ t, normalize c2wText = some (ChartResult.mk (c2wLabels.take 13) (c2wValues.take 13) t) ∧
      sumVals (c2wValues.take 13) = some t) :=
  ⟨by decide, by decide,
    c2_first13_of_json_arrays c2wText c2wLabels c2wValues rfl (by decide) (by decide) (by decide)⟩

/-- C3 witness: on the 14-element example the total is 910, the sum of the
13 retained values, not the pre-truncation sum 1050. -/
theorem c3_witness :
    normalize c2wText = some c3WitnessResult ∧
    sumVals c3WitnessResult.valores = some c3WitnessResult.suma_total ∧
    c3WitnessResult.valores.length = 13 :=
  ⟨rfl, (c3_total_is_post_enforcement_sum c2wText c3WitnessResult rfl).1,
    (c3_total_is_post_enforcement_sum c2wText c3WitnessResult rfl).2⟩

/-- C4 (code bug).  Deleting by a well-formed identifier that resolves to no
stored record responds with HTTP 500, not with the NotFound (404) error the
code itself constructs: the `HTTPException(404, "Cálculo no encontrado")`
is swallowed by the handler's own `except Exception` clause and re-wrapped
as `500: Error al eliminar el cálculo: 404: Cálculo no encontrado`. -/
theorem c4_delete_nonexistent_returns_500 :
    delete_calculation [] c4AbsentId = (500, DeleteDetail.errorAlEliminar true) ∧
    (delete_calculation [] c4AbsentId).1 ≠ 404 := by
  decide

/-- C5 witness: the spec's example — labels `Col 1` .. `Col 13`, values
1680 and 930 (commas stripped) padded with eleven zeros, total 2610. -/
theorem c5_witness :
    findJsonMatch c5wText = none ∧
    normalize c5wText = some (ChartResult.mk fallbackEtiquetas
      (JVal.jnum 1680 :: JVal.jnum 930 :: List.replicate 11 (JVal.jnum 0)) 2610) ∧
    (∃ t, normalize c5wText = some (ChartResult.mk fallbackEtiquetas
        (enforceValores (fallbackValores c5wText)) t) ∧
      sumVals (enforceValores (fallbackValores c5wText)) = some t) :=
  ⟨rfl, rfl, c5_no_json_fallback_shape c5wText rfl⟩

/-- C6.  On the spec's example object with two labels and two values the
normalizer keeps both entries, pads the labels with `Col 3` .. `Col 13`
and the values with eleven zeros, and totals 300. -/
theorem c6_small_object_is_padded :
    normalize c6Text = some (ChartResult.mk
      [JVal.jstr ("Ene".toList), JVal.jstr ("Feb".toList), JVal.jstr ("Col 3".toList),
       JVal.jstr ("Col 4".toList), JVal.jstr ("Col 5".toList), JVal.jstr ("Col 6".toList),
       JVal.jstr ("Col 7".toList), JVal.jstr ("Col 8".toList), JVal.jstr ("Col 9".toList),
       JVal.jstr ("Col 10".toList), JVal.jstr ("Col 11".toList), JVal.jstr ("Col 12".toList),
       JVal.jstr ("Col 13".toList)]
      (JVal.jnum 100 :: JVal.jnum 200 :: List.replicate 11 (JVal.jnum 0)) 300) := rfl

/-- C7.  With no API credential configured, `analyze_chart` fails with the
configuration error (detail `API key no configurada`) before the external
model call: the outcome is the same whatever the call would have returned,
and the call-performed flag is `false` — no partial work happens. -/
theorem c7_missing_key_fails_before_call (call : ModelCall) :
    analyze_chart none call = (AnalyzeOutcome.configError, false) := rfl

/-- C8 witness: two different raw texts sharing the same first region,
which parses, normalize identically. -/
theorem c8_witness :
    findJsonMatch ("front \x7b\"valores\": [1]\x7d tail 77".toList) =
      some ("\x7b\"valores\": [1]\x7d".toList) ∧
    findJsonMatch ("\x7b\"valores\": [1]\x7d other".toList) =
      some ("\x7b\"valores\": [1]\x7d".toList) ∧
    parseRegion ("\x7b\"valores\": [1]\x7d".toList) =
      some (JVal.jobj [(valoresKey, JVal.jarr [JVal.jnum 1])]) ∧
    normalize ("front \x7b\"valores\": [1]\x7d tail 77".toList) =
      normalize ("\x7b\"valores\": [1]\x7d other".toList) :=
  ⟨rfl, rfl, rfl,
    c8_first_parsed_region_determines_output
      ("front \x7b\"valores\": [1]\x7d tail 77".toList)
      ("\x7b\"valores\": [1]\x7d other".toList)
      ("\x7b\"valores\": [1]\x7d".toList)
      [(valoresKey, JVal.jarr [JVal.jnum 1])] rfl rfl rfl⟩

/-- C9 witness: normalizing the spec's example twice yields equal results. -/
theorem c9_witness : normalize c6Text = normalize c6Text :=
  c9_normalization_deterministic c6Text (normalize c6Text) (normalize c6Text) rfl rfl

/-- C10 witness, both branches: a text whose JSON object has no `valores`
key yields 13 zero values and total 0 even though the tokens 55 and 66
appear after the object; a text whose JSON object has no `etiquetas` key
but `valores` `[9]` yields fully padded labels while its values come from
the array, not from the trailing token 77. -/
theorem c10_witness :
    (∃ r, normalize c10wTextA = some r ∧
      r.valores = List.replicate 13 (JVal.jnum 0) ∧ r.suma_total = 0) ∧
    (∃ r, normalize c10wTextB = some r ∧ r.etiquetas = enforceEtiquetas [] ∧
      r.valores = enforceValores [JVal.jnum 9]) :=
  ⟨(c10_missing_fields_default_to_empty_arrays c10wTextA
      ("\x7b\"etiquetas\": [\"a\"]\x7d".toList)
      [(etiquetasKey, JVal.jarr [JVal.jstr ['a']])] rfl rfl).1
      rfl (Or.inr ⟨[JVal.jstr ['a']], rfl⟩),
   (c10_missing_fields_default_to_empty_arrays c10wTextB
      ("\x7b\"valores\": [9]\x7d".toList)
      [(valoresKey, JVal.jarr [JVal.jnum 9])] rfl rfl).2
      rfl [JVal.jnum 9] rfl (by decide)⟩

end Server
